import Mathlib

set_option maxRecDepth 100000

/-!
Verification development for `src/backend/generate_menu_sql.py`.

The script builds SQL INSERT statements for customization groups and options
of a food-truck menu. Its pure core is `generate_customizations(item_id,
category_type)`, which appends one group row plus its option rows for each of
five fixed sections (Spice Level, Remove Items, Add-ons, Extras, Add a Drink)
and joins them with newlines; a driver iterates a static 13-item list and
prints a header comment, a per-item comment and each block.

Embedding choices:
* Prices are held in integer cents. Every price literal of the script has at
  most two decimal digits, and the script renders prices with the format
  `{price:.2f}`, which reproduces exactly those two digits; `fmtPrice` below
  renders cents the same way.
* The Python expression `item_id.replace('ITEM_', '')` removes every
  occurrence of the substring, left to right; `removeITEM` mirrors that.
* A generated SQL statement is represented first as a structured `Row`
  (mirroring the tuple that each f-string interpolates) and `renderRow`
  produces the statement text exactly as the f-strings do.
-/

/-- One catalog entry `(code, name, price, is_default, sort_order)` as the
tuples in the Python catalogs; `cents` holds the price in cents. -/
structure OptTuple where
  code : String
  name : String
  cents : Nat
  is_default : Nat
  sort_order : Nat
deriving DecidableEq

/-- `spice_opts` of the script. -/
def spice_opts : List OptTuple :=
  [⟨"MILD", "Mild", 0, 1, 1⟩,
   ⟨"SPICY", "Spicy (harissa instead of hot honey)", 0, 0, 2⟩]

/-- `remove_opts` of the script: four base entries, and `FRIES` appended when
the category is `RB`. -/
def remove_opts (category_type : String) : List OptTuple :=
  let base : List OptTuple :=
    [⟨"CHEESE", "No cheese", 0, 0, 1⟩,
     ⟨"GARLIC", "No garlic", 0, 0, 2⟩,
     ⟨"SALAD", "No salad (fries only)", 0, 0, 3⟩,
     ⟨"HONEY", "No hot honey", 0, 0, 4⟩]
  if category_type = "RB" then base ++ [⟨"FRIES", "No fries on top", 0, 0, 5⟩]
  else base

/-- `addon_opts` of the script: the if/elif chain on the category code. -/
def addon_opts (category_type : String) : List OptTuple :=
  if category_type = "GS" then
    [⟨"CHICKEN", "Chicken topping on fries", 300, 0, 1⟩,
     ⟨"BRISKET", "Brisket topping on fries", 400, 0, 2⟩,
     ⟨"MIXED", "Mixed topping on fries", 500, 0, 3⟩]
  else if category_type = "SW" then
    [⟨"MOZZ", "Extra shredded mozzarella in wrap", 100, 0, 1⟩,
     ⟨"CHICKEN", "Chicken topping on fries", 300, 0, 2⟩,
     ⟨"BRISKET", "Brisket topping on fries", 400, 0, 3⟩,
     ⟨"MIXED", "Mixed topping on fries", 500, 0, 4⟩]
  else if category_type = "LF" ∨ category_type = "RB" then
    [⟨"CHICKEN", "Extra chicken", 399, 0, 1⟩,
     ⟨"BRISKET", "Extra brisket", 499, 0, 2⟩,
     ⟨"MIXED", "Extra mixed", 599, 0, 3⟩]
  else []

/-- `extra_opts` of the script. -/
def extra_opts : List OptTuple :=
  [⟨"HALLOUMI", "Grilled Halloumi Sticks", 650, 0, 1⟩,
   ⟨"POPPERS", "Cheesy Pizza Poppers", 650, 0, 2⟩]

/-- `drink_opts` of the script: ten entries with numeric string codes. -/
def drink_opts : List OptTuple :=
  [⟨"1", "Shani Can 330ml", 250, 0, 1⟩,
   ⟨"2", "Rubicon Guava Can 330ml", 250, 0, 2⟩,
   ⟨"3", "Rubicon Mango Can 330ml", 250, 0, 3⟩,
   ⟨"4", "Rubicon Passion Fruit Can 330ml", 250, 0, 4⟩,
   ⟨"5", "Palestine Cola Can 330ml", 250, 0, 5⟩,
   ⟨"6", "Palestine Cola (Sugar Free) Can 330ml", 250, 0, 6⟩,
   ⟨"7", "Palestine Lemon and Lime Can 330ml", 250, 0, 7⟩,
   ⟨"8", "Palestine Orange Can 330ml", 250, 0, 8⟩,
   ⟨"9", "Bottled Water 350ml", 250, 0, 9⟩,
   ⟨"10", "Capri Sun 350ml", 200, 0, 10⟩]

/-- Python `s.replace("ITEM_", "")`: remove every occurrence of the pattern,
scanning left to right. -/
def removeITEM : List Char → List Char
  | 'I' :: 'T' :: 'E' :: 'M' :: '_' :: rest => removeITEM rest
  | c :: rest => c :: removeITEM rest
  | [] => []

/-- `clean_id = item_id.replace('ITEM_', '')` of the script. -/
def clean_id (item_id : String) : String := String.mk (removeITEM item_id.data)

/-- One generated SQL row: either a `customization_groups` insert or a
`customization_options` insert, holding the interpolated values. -/
inductive Row where
  | group (group_id item_id name gtype : String) (is_required sort_order : Nat)
  | option (option_id group_id name : String) (cents is_default sort_order : Nat)
deriving DecidableEq

/-- Decimal digit list of a natural number, with fuel so that the recursion is
structural; `fuel = n + 1` always suffices. -/
def natDigitsCore (fuel n : Nat) : List Char :=
  match fuel with
  | 0 => []
  | fuel + 1 =>
    if n < 10 then [Nat.digitChar n]
    else natDigitsCore fuel (n / 10) ++ [Nat.digitChar (n % 10)]

/-- Decimal rendering of a natural number, as Python renders a nonnegative
int in an f-string. -/
def natStr (n : Nat) : String := String.mk (natDigitsCore (n + 1) n)

/-- The two fractional digits of a price in cents. -/
def twoFrac (m : Nat) : String :=
  String.mk [Nat.digitChar (m / 10 % 10), Nat.digitChar (m % 10)]

/-- Python `f"{price:.2f}"` on a price of `cents / 100` currency units: the
integer part, a point, and exactly two fractional digits. -/
def fmtPrice (cents : Nat) : String :=
  natStr (cents / 100) ++ "." ++ twoFrac (cents % 100)

/-- The two f-string shapes of the script, applied to a structured row. -/
def renderRow : Row → String
  | Row.group gid iid nm ty req so =>
    "INSERT INTO customization_groups (group_id, item_id, name, type, is_required, sort_order) VALUES ('"
      ++ gid ++ "', '" ++ iid ++ "', '" ++ nm ++ "', '" ++ ty ++ "', "
      ++ natStr req ++ ", " ++ natStr so ++ ");"
  | Row.option oid gid nm cents dflt so =>
    "INSERT INTO customization_options (option_id, group_id, name, additional_price, is_default, sort_order) VALUES ('"
      ++ oid ++ "', '" ++ gid ++ "', '" ++ nm ++ "', "
      ++ fmtPrice cents ++ ", " ++ natStr dflt ++ ", " ++ natStr so ++ ");"

/-- The option row the script emits inside the section `kind` for catalog
entry `o`: ids `CO_<clean>_<KIND>_<CODE>` and `CG_<clean>_<KIND>`. -/
def optRow (c kind : String) (o : OptTuple) : Row :=
  Row.option ("CO_" ++ c ++ "_" ++ kind ++ "_" ++ o.code)
    ("CG_" ++ c ++ "_" ++ kind) o.name o.cents o.is_default o.sort_order

/-- One section of the script: the group insert, then one option insert per
catalog entry. -/
def groupBlock (c item_id kind nm ty : String) (req so : Nat)
    (opts : List OptTuple) : List Row :=
  Row.group ("CG_" ++ c ++ "_" ++ kind) item_id nm ty req so
    :: opts.map (optRow c kind)

/-- The emission phase of `generate_customizations`, over the already
computed Remove and Add-ons catalogs: Spice Level, Remove Items, Add-ons
(only when its catalog is non-empty, Python `if addon_opts:`), Extras,
Add a Drink. -/
def rowsOf (item_id : String) (rem add : List OptTuple) : List Row :=
  let c := clean_id item_id
  groupBlock c item_id "SPICE" "Spice Level" "single" 1 1 spice_opts ++
  groupBlock c item_id "REMOVE" "Remove Items" "multiple" 0 2 rem ++
  (if add = [] then [] else
    groupBlock c item_id "ADDON" "Add-ons" "multiple" 0 3 add) ++
  groupBlock c item_id "EXTRA" "Extras" "multiple" 0 4 extra_opts ++
  groupBlock c item_id "DRINK" "Add a Drink" "single" 0 5 drink_opts

/-- The rows `generate_customizations` appends to `sql`, in order. -/
def rows (item_id category_type : String) : List Row :=
  rowsOf item_id (remove_opts category_type) (addon_opts category_type)

/-- `generate_customizations` of the script: the statements joined by
newlines (`"\n".join(sql)`). -/
def generate_customizations (item_id category_type : String) : String :=
  String.intercalate "\n" ((rows item_id category_type).map renderRow)

/-- The static `items` list of the script. -/
def items : List (String × String) :=
  [("ITEM_MP_001", "RB"),
   ("ITEM_MP_002", "LF"),
   ("ITEM_MP_003", "GS"),
   ("ITEM_MP_004", "SW"),
   ("ITEM_SW_001", "SW"),
   ("ITEM_SW_002", "SW"),
   ("ITEM_SW_003", "SW"),
   ("ITEM_LF_001", "LF"),
   ("ITEM_LF_002", "LF"),
   ("ITEM_LF_003", "LF"),
   ("ITEM_RB_001", "RB"),
   ("ITEM_RB_002", "RB"),
   ("ITEM_RB_003", "RB")]

/-- The full text the driver prints: the header line, then for each item a
blank line, the per-item comment and the generated block, each `print` adding
a final newline. -/
def driverOutput : String :=
  "-- Generated Customizations\n" ++
  String.join (items.map fun p =>
    "\n-- Customizations for " ++ p.1 ++ "\n" ++
    generate_customizations p.1 p.2 ++ "\n")

/-- All structured rows the driver generates, over the whole static list. -/
def allRows : List Row := (items.map fun p => rows p.1 p.2).flatten

/-- Whether a row is a group insert. -/
def isGroup : Row → Bool
  | Row.group _ _ _ _ _ _ => true
  | Row.option _ _ _ _ _ _ => false

/-- The sort order carried by a row. -/
def rowSortOrder : Row → Nat
  | Row.group _ _ _ _ _ so => so
  | Row.option _ _ _ _ _ so => so

/-- The display name carried by a row. -/
def rowName : Row → String
  | Row.group _ _ nm _ _ _ => nm
  | Row.option _ _ nm _ _ _ => nm

/-- The group ids of the group rows of one generated block, in order. -/
def groupIds (item_id category_type : String) : List String :=
  (rows item_id category_type).filterMap fun r =>
    match r with
    | Row.group gid _ _ _ _ _ => some gid
    | Row.option _ _ _ _ _ _ => none

/-- The option ids of the option rows of one generated block, in order. -/
def optionIds (item_id category_type : String) : List String :=
  (rows item_id category_type).filterMap fun r =>
    match r with
    | Row.group _ _ _ _ _ _ => none
    | Row.option oid _ _ _ _ _ => some oid

/-- The display names of the group rows of one generated block, in order. -/
def groupNames (item_id category_type : String) : List String :=
  (rows item_id category_type).filterMap fun r =>
    match r with
    | Row.group _ _ nm _ _ _ => some nm
    | Row.option _ _ _ _ _ _ => none

/-- The sort orders of the group rows of one generated block, in order. -/
def groupSortOrders (item_id category_type : String) : List Nat :=
  (rows item_id category_type).filterMap fun r =>
    match r with
    | Row.group _ _ _ _ _ so => some so
    | Row.option _ _ _ _ _ _ => none

/-- The group ids generated over the whole static list. -/
def allGroupIds : List String := (items.map fun p => groupIds p.1 p.2).flatten

/-- The option ids generated over the whole static list. -/
def allOptionIds : List String := (items.map fun p => optionIds p.1 p.2).flatten

/-- The option catalogs of one block, in emission order; the add-on catalog
appears only when non-empty, matching the conditional group. -/
def catalogs (category_type : String) : List (List OptTuple) :=
  [spice_opts, remove_opts category_type] ++
  (if addon_opts category_type = [] then [] else [addon_opts category_type]) ++
  [extra_opts, drink_opts]

/-- Whether a row is an option insert pointing at the group id `gid`. -/
def isOptionOfGroup (gid : String) : Row → Bool
  | Row.group _ _ _ _ _ _ => false
  | Row.option _ g _ _ _ _ => g == gid

/-- Modelled from the spec: the spec's derivation rule "clean id = item
identifier with the literal prefix `ITEM_` removed", read as removing one
leading occurrence and leaving other identifiers unchanged. Kept apart from
`clean_id`, which embeds what the code does, so the two can be compared. -/
def clean_id_spec (item_id : String) : String :=
  if ("ITEM_".data).isPrefixOf item_id.data then String.mk (item_id.data.drop 5)
  else item_id

/-- Predicate: an option row whose is_default value is nonzero. -/
def isDefaultOption : Row → Bool
  | Row.option _ _ _ _ d _ => d != 0
  | Row.group _ _ _ _ _ _ => false

/-- Predicate: a group row whose is_required value is nonzero. -/
def isRequiredGroup : Row → Bool
  | Row.group _ _ _ _ req _ => req != 0
  | Row.option _ _ _ _ _ _ => false

/-- The group rows of a block paired with their option rows, in emission
order; the Add-ons pair appears only when its catalog is non-empty. -/
def blocksOf (item_id category_type : String) : List (Row × List Row) :=
  let c := clean_id item_id
  [(Row.group ("CG_" ++ c ++ "_" ++ "SPICE") item_id "Spice Level" "single" 1 1,
      spice_opts.map (optRow c "SPICE")),
   (Row.group ("CG_" ++ c ++ "_" ++ "REMOVE") item_id "Remove Items" "multiple" 0 2,
      (remove_opts category_type).map (optRow c "REMOVE"))] ++
  (if addon_opts category_type = [] then [] else
   [(Row.group ("CG_" ++ c ++ "_" ++ "ADDON") item_id "Add-ons" "multiple" 0 3,
      (addon_opts category_type).map (optRow c "ADDON"))]) ++
  [(Row.group ("CG_" ++ c ++ "_" ++ "EXTRA") item_id "Extras" "multiple" 0 4,
      extra_opts.map (optRow c "EXTRA")),
   (Row.group ("CG_" ++ c ++ "_" ++ "DRINK") item_id "Add a Drink" "single" 0 5,
      drink_opts.map (optRow c "DRINK"))]

/-- The five section kind tags of a block, ADDON only when emitted. -/
def groupKinds (category_type : String) : List String :=
  ["SPICE", "REMOVE"] ++
  (if addon_opts category_type = [] then [] else ["ADDON"]) ++
  ["EXTRA", "DRINK"]

/-- The section kind tags paired with their catalogs. -/
def kindCatalogs (category_type : String) : List (String × List OptTuple) :=
  [("SPICE", spice_opts), ("REMOVE", remove_opts category_type)] ++
  (if addon_opts category_type = [] then [] else
    [("ADDON", addon_opts category_type)]) ++
  [("EXTRA", extra_opts), ("DRINK", drink_opts)]

/-- A numeric key for a string; two strings with different keys differ, which
is all the uniqueness argument needs. -/
def strKey (s : String) : Nat := s.data.foldl (fun a c => a * 256 + c.toNat) 0

/-- Membership test on a list of keys. -/
def memN (n : Nat) : List Nat → Bool
  | [] => false
  | t :: ts => (n == t) || memN n ts

/-- Duplicate-freedom test on a list of keys. -/
def nodupN : List Nat → Bool
  | [] => true
  | n :: ts => (!(memN n ts)) && nodupN ts

/-- The observable behaviour of one program run: the script takes no input
and prints exactly the text determined by its static data. -/
def run_produces (out : String) : Prop := out = driverOutput

theorem remove_opts_cases (cat : String) :
    remove_opts cat =
      [⟨"CHEESE", "No cheese", 0, 0, 1⟩, ⟨"GARLIC", "No garlic", 0, 0, 2⟩,
       ⟨"SALAD", "No salad (fries only)", 0, 0, 3⟩, ⟨"HONEY", "No hot honey", 0, 0, 4⟩,
       ⟨"FRIES", "No fries on top", 0, 0, 5⟩] ∨
    remove_opts cat =
      [⟨"CHEESE", "No cheese", 0, 0, 1⟩, ⟨"GARLIC", "No garlic", 0, 0, 2⟩,
       ⟨"SALAD", "No salad (fries only)", 0, 0, 3⟩, ⟨"HONEY", "No hot honey", 0, 0, 4⟩] := by
  unfold remove_opts
  by_cases h : cat = "RB"
  · left
    simp [h]
  · right
    simp [h]

theorem remove_opts_of_ne (cat : String) (h : cat ≠ "RB") :
    remove_opts cat =
      [⟨"CHEESE", "No cheese", 0, 0, 1⟩, ⟨"GARLIC", "No garlic", 0, 0, 2⟩,
       ⟨"SALAD", "No salad (fries only)", 0, 0, 3⟩, ⟨"HONEY", "No hot honey", 0, 0, 4⟩] := by
  unfold remove_opts
  simp [h]

theorem addon_opts_cases (cat : String) :
    addon_opts cat =
      [⟨"CHICKEN", "Chicken topping on fries", 300, 0, 1⟩,
       ⟨"BRISKET", "Brisket topping on fries", 400, 0, 2⟩,
       ⟨"MIXED", "Mixed topping on fries", 500, 0, 3⟩] ∨
    addon_opts cat =
      [⟨"MOZZ", "Extra shredded mozzarella in wrap", 100, 0, 1⟩,
       ⟨"CHICKEN", "Chicken topping on fries", 300, 0, 2⟩,
       ⟨"BRISKET", "Brisket topping on fries", 400, 0, 3⟩,
       ⟨"MIXED", "Mixed topping on fries", 500, 0, 4⟩] ∨
    addon_opts cat =
      [⟨"CHICKEN", "Extra chicken", 399, 0, 1⟩,
       ⟨"BRISKET", "Extra brisket", 499, 0, 2⟩,
       ⟨"MIXED", "Extra mixed", 599, 0, 3⟩] ∨
    addon_opts cat = [] := by
  unfold addon_opts
  by_cases h1 : cat = "GS"
  · left
    simp [h1]
  · by_cases h2 : cat = "SW"
    · right; left
      simp [h1, h2]
    · by_cases h3 : cat = "LF" ∨ cat = "RB"
      · right; right; left
        simp [h1, h2, h3]
      · right; right; right
        simp [h1, h2, h3]

theorem addon_opts_of_ne (cat : String) (h1 : cat ≠ "GS") (h2 : cat ≠ "SW")
    (h3 : cat ≠ "LF") (h4 : cat ≠ "RB") : addon_opts cat = [] := by
  unfold addon_opts
  simp [h1, h2, h3, h4]

theorem filterMap_map_ours {α β γ : Type} (f : α → β) (g : β → Option γ)
    (l : List α) : (l.map f).filterMap g = l.filterMap (fun a => g (f a)) := by
  induction l with
  | nil => rfl
  | cons a t ih => simp [List.filterMap_cons, ih]

theorem filterMap_none_ours {α β : Type} (l : List α) :
    (l.filterMap fun _ => (none : Option β)) = [] := by
  induction l with
  | nil => rfl
  | cons a t ih => simp [List.filterMap_cons, ih]

theorem filter_const_false_ours {α : Type} (l : List α) :
    (l.filter fun _ => false) = [] := by
  induction l with
  | nil => rfl
  | cons a t ih => simp [List.filter_cons, ih]

theorem filter_map_ours {α β : Type} (f : α → β) (p : β → Bool) (l : List α) :
    (l.map f).filter p = (l.filter fun a => p (f a)).map f := by
  induction l with
  | nil => rfl
  | cons a t ih =>
    by_cases h : p (f a) = true
    · simp [List.filter_cons, h, ih]
    · simp [List.filter_cons, h, ih]

theorem clean_id_example : clean_id "ITEM_MP_001" = "MP_001" := by decide

theorem fmtPrice_example : fmtPrice 399 = "3.99" := by decide

theorem render_example :
    renderRow (Row.option "CO_X_SPICE_MILD" "CG_X_SPICE" "Mild" 0 1 1) =
      "INSERT INTO customization_options (option_id, group_id, name, additional_price, is_default, sort_order) VALUES ('CO_X_SPICE_MILD', 'CG_X_SPICE', 'Mild', 0.00, 1, 1);" := by
  decide

/-- C10: for every input pair, exactly one option row of the generated block
has a nonzero is_default, namely the MILD option of the Spice Level group
(with is_default 1), and the Spice Level group row is the only group row with
is_required nonzero (value 1). -/
theorem C10_unique_default_and_required (item cat : String) :
    (rows item cat).filter isDefaultOption =
      [Row.option ("CO_" ++ clean_id item ++ "_" ++ "SPICE" ++ "_" ++ "MILD")
        ("CG_" ++ clean_id item ++ "_" ++ "SPICE") "Mild" 0 1 1] ∧
    (rows item cat).filter isRequiredGroup =
      [Row.group ("CG_" ++ clean_id item ++ "_" ++ "SPICE")
        item "Spice Level" "single" 1 1] := by
  rcases remove_opts_cases cat with hr | hr <;>
    rcases addon_opts_cases cat with ha | ha | ha | ha <;>
      refine ⟨?_, ?_⟩ <;>
        simp [rows, rowsOf, hr, ha, groupBlock, optRow, spice_opts, extra_opts,
          drink_opts, List.filter_append, List.filter_cons, isDefaultOption,
          isRequiredGroup]

/-- C8: an unrecognized category code does not make generation fail (the
embedding is a total function); the block simply lacks the Add-ons group and
still has the Spice, Remove, Extras and Drinks groups. -/
theorem C8_unknown_category (item cat : String) (h1 : cat ≠ "GS")
    (h2 : cat ≠ "SW") (h3 : cat ≠ "LF") (h4 : cat ≠ "RB") :
    groupNames item cat = ["Spice Level", "Remove Items", "Extras", "Add a Drink"] ∧
    "Add-ons" ∉ groupNames item cat ∧
    generate_customizations item cat =
      String.intercalate "\n" ((rows item cat).map renderRow) := by
  have ha := addon_opts_of_ne cat h1 h2 h3 h4
  have hr := remove_opts_of_ne cat h4
  refine ⟨?_, ?_, rfl⟩ <;>
    simp [groupNames, rows, rowsOf, hr, ha, groupBlock, optRow, spice_opts,
      extra_opts, drink_opts, List.filterMap_append, List.filterMap_cons,
      filterMap_map_ours, filterMap_none_ours]

/-- Witness for C8 at the concrete unrecognized category code "XX". -/
theorem C8_witness :
    groupNames "ITEM_X" "XX" = ["Spice Level", "Remove Items", "Extras", "Add a Drink"] ∧
    "Add-ons" ∉ groupNames "ITEM_X" "XX" ∧
    generate_customizations "ITEM_X" "XX" =
      String.intercalate "\n" ((rows "ITEM_X" "XX").map renderRow) :=
  C8_unknown_category "ITEM_X" "XX" (by decide) (by decide) (by decide) (by decide)

theorem string_append_right_ne (a b c : String) (h : b.length ≠ c.length) :
    a ++ b ≠ a ++ c := by
  intro he
  apply h
  have h2 := congrArg String.length he
  simpa [String.length_append] using h2

/-- The group display names of a block: the optional Add-ons entry sits
between Remove Items and Extras. -/
theorem groupNames_eq (item cat : String) :
    groupNames item cat =
      ["Spice Level", "Remove Items"] ++
      (if addon_opts cat = [] then [] else ["Add-ons"]) ++
      ["Extras", "Add a Drink"] := by
  by_cases h : addon_opts cat = [] <;>
    simp [groupNames, rows, rowsOf, groupBlock, h, filterMap_map_ours,
      filterMap_none_ours, List.filterMap_append, List.filterMap_cons, optRow,
      Function.comp_def]

/-- The Add-ons group appears in a block exactly when the category's add-on
catalog is non-empty. -/
theorem addons_emitted_iff (item cat : String) :
    ("Add-ons" ∈ groupNames item cat) ↔ ¬ addon_opts cat = [] := by
  rw [groupNames_eq]
  by_cases h : addon_opts cat = [] <;> simp [h]

/-- C4: the Add-ons group is emitted exactly for the category codes GS, SW,
LF and RB, with the per-category option sets of the script (GS 3.00/4.00/5.00,
SW with MOZZ 1.00 first, LF and RB 3.99/4.99/5.99 with Extra-X display
names). -/
theorem C4_addon_categories (item cat : String) :
    ("Add-ons" ∈ groupNames item cat ↔
      (cat = "GS" ∨ cat = "SW" ∨ cat = "LF" ∨ cat = "RB")) ∧
    addon_opts "GS" =
      [⟨"CHICKEN", "Chicken topping on fries", 300, 0, 1⟩,
       ⟨"BRISKET", "Brisket topping on fries", 400, 0, 2⟩,
       ⟨"MIXED", "Mixed topping on fries", 500, 0, 3⟩] ∧
    addon_opts "SW" =
      [⟨"MOZZ", "Extra shredded mozzarella in wrap", 100, 0, 1⟩,
       ⟨"CHICKEN", "Chicken topping on fries", 300, 0, 2⟩,
       ⟨"BRISKET", "Brisket topping on fries", 400, 0, 3⟩,
       ⟨"MIXED", "Mixed topping on fries", 500, 0, 4⟩] ∧
    addon_opts "LF" =
      [⟨"CHICKEN", "Extra chicken", 399, 0, 1⟩,
       ⟨"BRISKET", "Extra brisket", 499, 0, 2⟩,
       ⟨"MIXED", "Extra mixed", 599, 0, 3⟩] ∧
    addon_opts "RB" = addon_opts "LF" := by
  refine ⟨?_, by decide, by decide, by decide, by decide⟩
  rw [addons_emitted_iff]
  constructor
  · intro hne
    by_contra hc
    push_neg at hc
    exact hne (addon_opts_of_ne cat hc.1 hc.2.1 hc.2.2.1 hc.2.2.2)
  · rintro (h | h | h | h) <;> subst h <;> decide

/-- C6: the Drinks group is always emitted last, with type single, not
required, group sort order 5, and exactly the ten fixed options with codes
1..10, prices 2.50 apart from Capri Sun (code 10) at 2.00, all defaults 0 and
sort orders 1..10. -/
theorem C6_drinks (item cat : String) :
    ∃ pre : List Row,
      rows item cat = pre ++
        (Row.group ("CG_" ++ clean_id item ++ "_" ++ "DRINK") item
            "Add a Drink" "single" 0 5 ::
          [Row.option ("CO_" ++ clean_id item ++ "_" ++ "DRINK" ++ "_" ++ "1")
             ("CG_" ++ clean_id item ++ "_" ++ "DRINK") "Shani Can 330ml" 250 0 1,
           Row.option ("CO_" ++ clean_id item ++ "_" ++ "DRINK" ++ "_" ++ "2")
             ("CG_" ++ clean_id item ++ "_" ++ "DRINK") "Rubicon Guava Can 330ml" 250 0 2,
           Row.option ("CO_" ++ clean_id item ++ "_" ++ "DRINK" ++ "_" ++ "3")
             ("CG_" ++ clean_id item ++ "_" ++ "DRINK") "Rubicon Mango Can 330ml" 250 0 3,
           Row.option ("CO_" ++ clean_id item ++ "_" ++ "DRINK" ++ "_" ++ "4")
             ("CG_" ++ clean_id item ++ "_" ++ "DRINK") "Rubicon Passion Fruit Can 330ml" 250 0 4,
           Row.option ("CO_" ++ clean_id item ++ "_" ++ "DRINK" ++ "_" ++ "5")
             ("CG_" ++ clean_id item ++ "_" ++ "DRINK") "Palestine Cola Can 330ml" 250 0 5,
           Row.option ("CO_" ++ clean_id item ++ "_" ++ "DRINK" ++ "_" ++ "6")
             ("CG_" ++ clean_id item ++ "_" ++ "DRINK") "Palestine Cola (Sugar Free) Can 330ml" 250 0 6,
           Row.option ("CO_" ++ clean_id item ++ "_" ++ "DRINK" ++ "_" ++ "7")
             ("CG_" ++ clean_id item ++ "_" ++ "DRINK") "Palestine Lemon and Lime Can 330ml" 250 0 7,
           Row.option ("CO_" ++ clean_id item ++ "_" ++ "DRINK" ++ "_" ++ "8")
             ("CG_" ++ clean_id item ++ "_" ++ "DRINK") "Palestine Orange Can 330ml" 250 0 8,
           Row.option ("CO_" ++ clean_id item ++ "_" ++ "DRINK" ++ "_" ++ "9")
             ("CG_" ++ clean_id item ++ "_" ++ "DRINK") "Bottled Water 350ml" 250 0 9,
           Row.option ("CO_" ++ clean_id item ++ "_" ++ "DRINK" ++ "_" ++ "10")
             ("CG_" ++ clean_id item ++ "_" ++ "DRINK") "Capri Sun 350ml" 200 0 10]) := by
  refine ⟨groupBlock (clean_id item) item "SPICE" "Spice Level" "single" 1 1 spice_opts ++
    groupBlock (clean_id item) item "REMOVE" "Remove Items" "multiple" 0 2 (remove_opts cat) ++
    (if addon_opts cat = [] then [] else
      groupBlock (clean_id item) item "ADDON" "Add-ons" "multiple" 0 3 (addon_opts cat)) ++
    groupBlock (clean_id item) item "EXTRA" "Extras" "multiple" 0 4 extra_opts, ?_⟩
  simp [rows, rowsOf, groupBlock, optRow, drink_opts, List.append_assoc]

/-- C5: the Remove group has 5 option rows for category RB (FRIES appended)
and 4 for every other category; the script's output for ITEM_MP_001 with
category RB holds the exact FRIES insert line. -/
theorem C5_remove_group (item cat : String) :
    ((rows item cat).filter
        (isOptionOfGroup ("CG_" ++ clean_id item ++ "_" ++ "REMOVE"))).length =
      (if cat = "RB" then 5 else 4) ∧
    (remove_opts cat).getLast? =
      some (if cat = "RB" then ⟨"FRIES", "No fries on top", 0, 0, 5⟩
        else ⟨"HONEY", "No hot honey", 0, 0, 4⟩) ∧
    "INSERT INTO customization_options (option_id, group_id, name, additional_price, is_default, sort_order) VALUES ('CO_MP_001_REMOVE_FRIES', 'CG_MP_001_REMOVE', 'No fries on top', 0.00, 0, 5);"
      ∈ (rows "ITEM_MP_001" "RB").map renderRow := by
  have hS : (("CG_" ++ clean_id item ++ "_" ++ "SPICE" : String) ==
      "CG_" ++ clean_id item ++ "_" ++ "REMOVE") = false :=
    beq_eq_false_iff_ne.mpr (string_append_right_ne _ _ _ (by decide))
  have hA : (("CG_" ++ clean_id item ++ "_" ++ "ADDON" : String) ==
      "CG_" ++ clean_id item ++ "_" ++ "REMOVE") = false :=
    beq_eq_false_iff_ne.mpr (string_append_right_ne _ _ _ (by decide))
  have hE : (("CG_" ++ clean_id item ++ "_" ++ "EXTRA" : String) ==
      "CG_" ++ clean_id item ++ "_" ++ "REMOVE") = false :=
    beq_eq_false_iff_ne.mpr (string_append_right_ne _ _ _ (by decide))
  have hD : (("CG_" ++ clean_id item ++ "_" ++ "DRINK" : String) ==
      "CG_" ++ clean_id item ++ "_" ++ "REMOVE") = false :=
    beq_eq_false_iff_ne.mpr (string_append_right_ne _ _ _ (by decide))
  refine ⟨?_, ?_, by decide⟩
  · by_cases hrb : cat = "RB"
    · subst hrb
      simp [rows, rowsOf, remove_opts, addon_opts, groupBlock, optRow,
        isOptionOfGroup, filter_map_ours, List.filter_append, List.filter_cons,
        hS, hA, hE, hD, filter_const_false_ours]
    · rcases addon_opts_cases cat with ha | ha | ha | ha <;>
        simp [rows, rowsOf, remove_opts_of_ne cat hrb, ha, hrb, groupBlock,
          optRow, isOptionOfGroup, filter_map_ours, List.filter_append,
          List.filter_cons, hS, hA, hE, hD, filter_const_false_ours]
  · by_cases hrb : cat = "RB" <;> simp [remove_opts, hrb]

theorem filterMap_some_ours {α β : Type} (g : α → β) (l : List α) :
    (l.filterMap fun a => some (g a)) = l.map g := by
  induction l with
  | nil => rfl
  | cons a t ih => simp [List.filterMap_cons, ih]

theorem countP_isGroup_optRow (c k : String) (l : List OptTuple) :
    (l.map (optRow c k)).countP isGroup = 0 := by
  induction l with
  | nil => rfl
  | cons a t ih => simp [List.countP_cons, optRow, isGroup, ih]

theorem map_sortOrder_optRow (c k : String) (l : List OptTuple) :
    (l.map (optRow c k)).map rowSortOrder = l.map (fun o => o.sort_order) := by
  induction l with
  | nil => rfl
  | cons a t ih => simp [optRow, rowSortOrder, ih]

theorem memN_eq_false {n : Nat} {l : List Nat} (h : memN n l = false) :
    n ∉ l := by
  induction l with
  | nil => simp
  | cons t ts ih =>
    simp [memN, Bool.or_eq_false_iff] at h
    simp [h.1]
    exact ih h.2

theorem nodupN_correct : ∀ {l : List Nat}, nodupN l = true → l.Nodup := by
  intro l
  induction l with
  | nil =>
    intro h
    exact List.nodup_nil
  | cons n ts ih =>
    intro h
    simp [nodupN, Bool.and_eq_true] at h
    exact List.Nodup.cons (memN_eq_false (by simp [h.1])) (ih h.2)

theorem digitChar_isDigit : ∀ n, n < 10 → (Nat.digitChar n).isDigit = true := by
  decide

theorem natDigitsCore_digits :
    ∀ (fuel n : Nat), ∀ ch ∈ natDigitsCore fuel n, ch.isDigit = true := by
  intro fuel
  induction fuel with
  | zero =>
    intro n ch h
    simp [natDigitsCore] at h
  | succ f ih =>
    intro n ch h
    by_cases h10 : n < 10
    · simp [natDigitsCore, h10] at h
      subst h
      exact digitChar_isDigit n h10
    · simp [natDigitsCore, h10] at h
      rcases h with h | h
      · exact ih (n / 10) ch h
      · subst h
        exact digitChar_isDigit (n % 10) (Nat.mod_lt n (by omega))

theorem natStr_digits (n : Nat) : ∀ ch ∈ (natStr n).data, ch.isDigit = true := by
  intro ch h
  exact natDigitsCore_digits (n + 1) n ch h

theorem twoFrac_length (m : Nat) : (twoFrac m).length = 2 := rfl

theorem twoFrac_digits (m : Nat) : ∀ ch ∈ (twoFrac m).data, ch.isDigit = true := by
  intro ch h
  simp [twoFrac] at h
  rcases h with h | h <;> subst h
  · exact digitChar_isDigit _ (Nat.mod_lt _ (by omega))
  · exact digitChar_isDigit _ (Nat.mod_lt _ (by omega))

/-- C1 counterexample: at the concrete input (ITEM_X, XX) — a category code
with an empty add-on catalog — the four emitted groups carry sort orders
1, 2, 4, 5, which is not a contiguous sequence starting at 1. -/
theorem C1_counterexample :
    groupSortOrders "ITEM_X" "XX" = [1, 2, 4, 5] ∧
    ¬ groupSortOrders "ITEM_X" "XX" =
        List.range' 1 (groupSortOrders "ITEM_X" "XX").length := by
  constructor
  · decide
  · decide

/-- C1 (amended): each block decomposes into group rows each followed by its
option rows, 5 groups when the add-on catalog is non-empty and 4 otherwise,
in the kind order Spice, Remove, [Add-on], Extra, Drink; the group sort
orders are 1,2,3,4,5 with Add-ons and 1,2,4,5 without (slot 3 skipped); and
within every group the option sort orders are exactly 1..N, N the catalog
length for that group and category. -/
theorem C1_block_structure (item cat : String) :
    ∃ bs : List (Row × List Row),
      rows item cat = (bs.map fun b => b.1 :: b.2).flatten ∧
      (bs.map fun b => isGroup b.1) = List.replicate bs.length true ∧
      (bs.map fun b => b.2.countP isGroup) = List.replicate bs.length 0 ∧
      bs.length = (if addon_opts cat = [] then 4 else 5) ∧
      (bs.map fun b => rowName b.1) =
        (if addon_opts cat = [] then
          ["Spice Level", "Remove Items", "Extras", "Add a Drink"]
         else
          ["Spice Level", "Remove Items", "Add-ons", "Extras", "Add a Drink"]) ∧
      (bs.map fun b => rowSortOrder b.1) =
        (if addon_opts cat = [] then [1, 2, 4, 5] else [1, 2, 3, 4, 5]) ∧
      (bs.map fun b => b.2.map rowSortOrder) =
        (catalogs cat).map fun l => List.range' 1 l.length := by
  refine ⟨blocksOf item cat, ?_, ?_, ?_, ?_, ?_, ?_, ?_⟩ <;>
    rcases remove_opts_cases cat with hr | hr <;>
      rcases addon_opts_cases cat with ha | ha | ha | ha <;>
        simp [blocksOf, rows, rowsOf, catalogs, hr, ha, groupBlock, isGroup,
          rowName, rowSortOrder, countP_isGroup_optRow, map_sortOrder_optRow,
          optRow, spice_opts, extra_opts, drink_opts, List.range',
          List.replicate]

/-- C2 counterexample: at the concrete item identifier ITEM_ITEM_A the code
removes both occurrences of ITEM_, producing clean id A and spice group id
CG_A_SPICE, while stripping only the literal prefix would leave ITEM_A and
predict CG_ITEM_A_SPICE, which appears nowhere in the block. -/
theorem C2_counterexample :
    clean_id "ITEM_ITEM_A" = "A" ∧
    clean_id_spec "ITEM_ITEM_A" = "ITEM_A" ∧
    groupIds "ITEM_ITEM_A" "GS" =
      ["CG_A_SPICE", "CG_A_REMOVE", "CG_A_ADDON", "CG_A_EXTRA", "CG_A_DRINK"] ∧
    ("CG_" ++ clean_id_spec "ITEM_ITEM_A" ++ "_" ++ "SPICE") ∉
      groupIds "ITEM_ITEM_A" "GS" := by
  refine ⟨by decide, by decide, by decide, by decide⟩

/-- C2 (amended): the clean id removes every occurrence of the substring
ITEM_ from the item identifier (coinciding with prefix removal whenever
ITEM_ occurs only as the leading prefix); group ids are CG_<clean>_<KIND>
with KIND among SPICE, REMOVE, ADDON, EXTRA, DRINK, option ids are
CO_<clean>_<KIND>_<CODE>, and group rows carry the item id unmodified. -/
theorem C2_id_shapes (item cat : String) :
    clean_id item = String.mk (removeITEM item.data) ∧
    groupIds item cat =
      (groupKinds cat).map (fun k => "CG_" ++ clean_id item ++ "_" ++ k) ∧
    optionIds item cat =
      ((kindCatalogs cat).map fun kc =>
        kc.2.map fun o =>
          "CO_" ++ clean_id item ++ "_" ++ kc.1 ++ "_" ++ o.code).flatten ∧
    (rows item cat).filterMap
        (fun r => match r with
          | Row.group _ iid _ _ _ _ => some iid
          | Row.option _ _ _ _ _ _ => none) =
      List.replicate (groupKinds cat).length item := by
  refine ⟨rfl, ?_, ?_, ?_⟩ <;>
    by_cases h : addon_opts cat = [] <;>
      simp [groupIds, optionIds, groupKinds, kindCatalogs, rows, rowsOf, h,
        groupBlock, optRow, filterMap_map_ours, filterMap_none_ours,
        filterMap_some_ours, Function.comp_def, List.filterMap_append,
        List.filterMap_cons, List.replicate]

theorem allIds_key_nodup :
    nodupN ((allGroupIds ++ allOptionIds).map strKey) = true := by rfl

/-- C3: over the full static 13-item run, every generated group id and every
generated option id occurs exactly once: the combined id list has no
duplicate, so there are no collisions between items, not even between items
sharing a category code. -/
theorem C3_ids_unique : (allGroupIds ++ allOptionIds).Nodup :=
  List.Nodup.of_map strKey (nodupN_correct allIds_key_nodup)

/-- C7: every option row of a generated block renders its price through
fmtPrice, whose output is the decimal digits of the integer part, one point,
and exactly two fractional digits — so every price in an option statement has
exactly two digits after the decimal point. -/
theorem C7_price_two_decimals (item cat : String) (r : Row)
    (oid gid nm : String) (cents d so : Nat)
    (hmem : r ∈ rows item cat) (hr : r = Row.option oid gid nm cents d so) :
    (∃ pre post : String, renderRow r = pre ++ fmtPrice cents ++ post) ∧
    fmtPrice cents = natStr (cents / 100) ++ "." ++ twoFrac (cents % 100) ∧
    (twoFrac (cents % 100)).length = 2 ∧
    (∀ ch ∈ (twoFrac (cents % 100)).data, ch.isDigit = true) ∧
    (∀ ch ∈ (natStr (cents / 100)).data, ch.isDigit = true) := by
  subst hr
  refine ⟨⟨"INSERT INTO customization_options (option_id, group_id, name, additional_price, is_default, sort_order) VALUES ('"
      ++ oid ++ "', '" ++ gid ++ "', '" ++ nm ++ "', ",
    ", " ++ natStr d ++ ", " ++ natStr so ++ ");", ?_⟩,
    rfl, twoFrac_length _, twoFrac_digits _, natStr_digits _⟩
  simp [renderRow, String.append_assoc]

/-- Witness for C7 at the MILD spice option of the block for (ITEM_X, GS). -/
theorem C7_witness :
    (∃ pre post : String,
      renderRow (Row.option ("CO_" ++ "X" ++ "_" ++ "SPICE" ++ "_" ++ "MILD")
          ("CG_" ++ "X" ++ "_" ++ "SPICE") "Mild" 0 1 1) =
        pre ++ fmtPrice 0 ++ post) ∧
    fmtPrice 0 = natStr (0 / 100) ++ "." ++ twoFrac (0 % 100) ∧
    (twoFrac (0 % 100)).length = 2 ∧
    (∀ ch ∈ (twoFrac (0 % 100)).data, ch.isDigit = true) ∧
    (∀ ch ∈ (natStr (0 / 100)).data, ch.isDigit = true) :=
  C7_price_two_decimals "ITEM_X" "GS" _
    ("CO_" ++ "X" ++ "_" ++ "SPICE" ++ "_" ++ "MILD")
    ("CG_" ++ "X" ++ "_" ++ "SPICE") "Mild" 0 1 1 (by decide) rfl

/-- C9: the run is deterministic — any two runs of the driver produce the
same text, a pure function of the static item list. -/
theorem C9_deterministic (o1 o2 : String)
    (h1 : run_produces o1) (h2 : run_produces o2) : o1 = o2 :=
  h1.trans h2.symm

/-- Witness for C9: two runs both producing the driver's output agree. -/
theorem C9_witness : driverOutput = driverOutput :=
  C9_deterministic driverOutput driverOutput rfl rfl
